import Mathlib

/-!
# Shopping-list backend: shallow embedding and verification

A shallow embedding of the Go backend in `backend/main.go` of the
shopping-list-app repository, together with theorems settling the frozen
claims about its specification.

Modelling conventions:
* Database driver outcomes (results of `Exec`, `Query`, `QueryRow`, `Ping`)
  are passed to the embedded functions as explicit `Except DbErr _` values,
  since the driver is an external collaborator.
* Go `error` values produced by the repository via `fmt.Errorf` are modelled
  as their message strings (`GoErr`), because the handlers consume them
  purely through `err.Error()` substring matching.
* Each repository function additionally returns the list of SQL calls it
  issued to the gateway (`List Call`), so that "no storage call is made"
  and "exactly one parameterized call" are provable statements.
* `time.Time` values are modelled as `Nat` (an abstract timestamp).
-/

namespace ShoppingList

/-- `Item` struct (main.go lines 35-40): json tags `id`, `name`, `quantity`,
`created_at` (the last with `omitempty`). -/
structure Item where
  id : Int
  name : String
  quantity : String
  createdAt : Nat
  deriving Repr, DecidableEq

/-- The zero value of the Go `Item` struct, the starting point of JSON
decoding into `var newItem Item`. -/
def zeroItem : Item := { id := 0, name := "", quantity := "", createdAt := 0 }

/-- An error returned by the database driver (pgx); carries its message. -/
structure DbErr where
  msg : String
  deriving Repr, DecidableEq

/-- A Go `error` value produced by the repository with `fmt.Errorf`;
modelled by its `Error()` string, which is all the handlers inspect. -/
structure GoErr where
  msg : String
  deriving Repr, DecidableEq

/-- A parameter bound to a parameterized SQL statement. -/
inductive SqlArg where
  | int (i : Int)
  | str (s : String)
  deriving Repr, DecidableEq

/-- One SQL call issued through the `DBPool` gateway: statement text plus
the separately-bound parameters. -/
structure Call where
  sql : String
  args : List SqlArg
  deriving Repr, DecidableEq

/-! ## Go string helpers used by the backend -/

/-- `startsWithL l p` : the char list `l` starts with `p`. -/
def startsWithL : List Char → List Char → Bool
  | _, [] => true
  | [], _ :: _ => false
  | c :: cs, p :: ps => c = p && startsWithL cs ps

/-- `containsL pat l` : the char list `l` has `pat` as a contiguous sublist. -/
def containsL (pat : List Char) : List Char → Bool
  | [] => startsWithL [] pat
  | c :: cs => startsWithL (c :: cs) pat || containsL pat cs

/-- Go `strings.Contains s pat`. -/
def strContains (s pat : String) : Bool :=
  containsL pat.data s.data

/-- Go `unicode.IsSpace` restricted to the ASCII whitespace the claims
exercise (Go additionally trims Unicode spaces). -/
def goIsSpace (c : Char) : Bool :=
  c = ' ' || c = '\t' || c = '\n' || c = '\x0B' || c = '\x0C' || c = '\r'

/-- Go `strings.TrimSpace`: removes leading and trailing whitespace. -/
def trimSpace (s : String) : String :=
  ⟨((s.data.dropWhile goIsSpace).reverse.dropWhile goIsSpace).reverse⟩

/-- ASCII lower-casing of one character, as Go's case-insensitive JSON
field matching folds keys. -/
def asciiLowerChar (c : Char) : Char :=
  if 'A' ≤ c ∧ c ≤ 'Z' then Char.ofNat (c.toNat + 32) else c

/-- ASCII lower-casing of a JSON key, modelling `encoding/json`'s
case-insensitive match of keys against struct tags. -/
def lowerKey (k : String) : String :=
  ⟨k.data.map asciiLowerChar⟩

/-- Go `strings.TrimSuffix(path, "/")`: removes one trailing slash if present. -/
def trimSuffixSlash (s : String) : String :=
  if s.data.getLast? = some '/' then ⟨s.data.dropLast⟩ else s

/-- Worker for `splitSlash`: `acc` holds the current segment reversed. -/
def splitSlashAux : List Char → List Char → List String
  | [], acc => [⟨acc.reverse⟩]
  | c :: cs, acc =>
    if c = '/' then ⟨acc.reverse⟩ :: splitSlashAux cs []
    else splitSlashAux cs (c :: acc)

/-- Go `strings.Split(s, "/")`: the segments of `s` between slashes,
including empty ones. -/
def splitSlash (s : String) : List String :=
  splitSlashAux s.data []

/-- Accumulate the value of a decimal digit string; fails on a non-digit.
Used to model `strconv.Atoi`. -/
def digitsVal : List Char → Nat → Option Nat
  | [], acc => some acc
  | c :: rest, acc =>
    if c.isDigit then digitsVal rest (acc * 10 + (c.toNat - 48)) else none

/-- Go `strconv.Atoi` on a 64-bit platform: optional sign, at least one
decimal digit, and the value must fit in a signed 64-bit integer
(out-of-range input returns an error). -/
def atoi (s : String) : Except Unit Int :=
  match s.data with
  | [] => .error ()
  | c :: rest =>
    let signDigits : Bool × List Char :=
      if c = '-' then (true, rest)
      else if c = '+' then (false, rest) else (false, c :: rest)
    match signDigits.2 with
    | [] => .error ()
    | ds =>
      match digitsVal ds 0 with
      | none => .error ()
      | some v =>
        if signDigits.1 then
          if v ≤ 2 ^ 63 then .ok (-(v : Int)) else .error ()
        else
          if v ≤ 2 ^ 63 - 1 then .ok (v : Int) else .error ()

/-! ## Repository (main.go lines 111-193)

Each function takes the driver's outcome for the single call it makes as an
explicit argument and returns its Go result paired with the list of SQL
calls it issued. -/

/-- The cursor produced by a successful `Query`: the driver outcome of each
`rows.Scan` in iteration order, plus the value of `rows.Err()` observed
after the loop. -/
structure Cursor where
  rows : List (Except DbErr Item)
  finalErr : Option DbErr
  deriving Repr

/-- The pgx sentinel `pgx.ErrNoRows`. -/
def pgxErrNoRows : DbErr := ⟨"no rows in result set"⟩

/-- SQL text of the list query. -/
def selectSQL : String :=
  "SELECT id, name, quantity, created_at FROM items ORDER BY created_at DESC"

/-- SQL text of the insert. -/
def insertSQL : String :=
  "INSERT INTO items (name, quantity) VALUES ($1, $2) RETURNING id, created_at"

/-- SQL text of the delete. -/
def deleteSQL : String := "DELETE FROM items WHERE id = $1"

/-- `getItems` (main.go lines 113-146). `q` is the outcome of
`dbpool.Query`: an error, or a cursor of per-row scan outcomes plus the
final `rows.Err()`. Scan failures are skipped (`continue`); a non-nil
`rows.Err()` after the loop discards the collected items. -/
def getItems (q : Except DbErr Cursor) : Except GoErr (List Item) × List Call :=
  let call : Call := { sql := selectSQL, args := [] }
  match q with
  | .error e =>
    if e = pgxErrNoRows then (.ok [], [call])
    else (.error ⟨"database query error: " ++ e.msg⟩, [call])
  | .ok cur =>
    let items := cur.rows.filterMap fun r =>
      match r with
      | .ok item => some item
      | .error _ => none
    match cur.finalErr with
    | some e => (.error ⟨"database iteration error: " ++ e.msg⟩, [call])
    | none => (.ok items, [call])

/-- `addItem` (main.go lines 151-174). `qr` is the outcome of the
`QueryRow(...).Scan` insert: the assigned `(id, created_at)` or a driver
error. Validation happens before any storage call. -/
def addItem (qr : Except DbErr (Int × Nat)) (newItem : Item) :
    Except GoErr Item × List Call :=
  if trimSpace newItem.name = "" ∨ trimSpace newItem.quantity = "" then
    (.error ⟨"item name and quantity cannot be empty"⟩, [])
  else
    let call : Call :=
      { sql := insertSQL, args := [.str newItem.name, .str newItem.quantity] }
    match qr with
    | .error e => (.error ⟨"database insert error: " ++ e.msg⟩, [call])
    | .ok (insertedID, createdAt) =>
        (.ok { newItem with id := insertedID, createdAt := createdAt }, [call])

/-- `deleteItem` (main.go lines 179-193). `gwExec` is the outcome of
`dbpool.Exec`: the affected-row count or a driver error. Zero affected rows
yield the distinct not-found error message. -/
def deleteItem (gwExec : Except DbErr Nat) (id : Int) :
    Except GoErr Unit × List Call :=
  let call : Call := { sql := deleteSQL, args := [.int id] }
  match gwExec with
  | .error e => (.error ⟨"database delete error: " ++ e.msg⟩, [call])
  | .ok rowsAffected =>
    if rowsAffected = 0 then
      (.error ⟨"item with ID " ++ toString id ++ " not found"⟩, [call])
    else (.ok (), [call])

/-! ## HTTP layer (main.go lines 198-325, 376-385) -/

/-- An HTTP response: status code and body. `http.Error` writes its message
followed by a newline; `json.Encoder.Encode` also appends a newline. -/
structure Response where
  status : Nat
  body : String
  deriving Repr, DecidableEq

/-- HTTP request methods. -/
inductive Method where
  | get | post | delete | put | head | patch | options
  deriving Repr, DecidableEq

/-- Concatenate strings. -/
def joinAll : List String → String
  | [] => ""
  | x :: xs => x ++ joinAll xs

/-- Concatenate strings with a separator between adjacent elements. -/
def joinSep (sep : String) : List String → String
  | [] => ""
  | [x] => x
  | x :: y :: xs => x ++ sep ++ joinSep sep (y :: xs)

/-- Minimal JSON string encoding used by `encoding/json` on output
(escaping beyond quote/backslash is not needed for these claims). -/
def jsonEscapeChar (c : Char) : String :=
  if c = '"' then "\\\"" else if c = '\\' then "\\\\" else String.singleton c

/-- Encode a string as a JSON string literal. -/
def jsonStr (s : String) : String :=
  "\"" ++ joinAll (s.data.map jsonEscapeChar) ++ "\""

/-- Compact JSON encoding of one `Item`, per its struct tags; `created_at`
carries `omitempty`, so the zero timestamp is omitted. -/
def encodeItem (it : Item) : String :=
  "\x7b\"id\":" ++ toString it.id ++ ",\"name\":" ++ jsonStr it.name ++
    ",\"quantity\":" ++ jsonStr it.quantity ++
    (if it.createdAt = 0 then "" else ",\"created_at\":" ++ toString it.createdAt) ++ "\x7d"

/-- Compact JSON encoding of a non-nil `[]Item` slice: always a JSON array,
`[]` when empty. -/
def encodeItems (items : List Item) : String :=
  "[" ++ joinSep "," (items.map encodeItem) ++ "]"

/-! ### JSON request-body decoding (addItemHandler, main.go lines 254-289)

The decoder is `json.NewDecoder` with `DisallowUnknownFields()` into the
`Item` struct, behind a 1 MiB `MaxBytesReader`. A syntactically valid JSON
object body is modelled as its field list in document order; the decoder
walks the fields, matching each key against the struct's json tags
(case-insensitively, as `encoding/json` does), failing on the first
type-mismatched or unknown field. -/

/-- A decoded JSON value, as far as the `Item` struct cares. -/
inductive JVal where
  | str (s : String)
  | num (n : Int)
  | other
  deriving Repr, DecidableEq

/-- A well-formed JSON object body: keys with values, in document order. -/
abbrev JBody := List (String × JVal)

/-- Errors produced while decoding the request body. -/
inductive DecodeErr where
  | badJson (offset : Nat)
  | typeMismatch (field : String) (offset : Nat)
  | unknownField (field : String)
  | emptyBody
  | tooLarge
  deriving Repr, DecidableEq

/-- The json tags of the `Item` struct: the keys `encoding/json` recognizes
when decoding into `Item` (matched case-insensitively). -/
def knownKey (k : String) : Bool :=
  lowerKey k = "id" || lowerKey k = "name" || lowerKey k = "quantity" ||
    lowerKey k = "created_at"

/-- `encoding/json` object decoding into `Item` with
`DisallowUnknownFields()`: fields are consumed in order; a key matching a
struct tag must carry a value of that field's type; any other key stops
decoding with an unknown-field error. The decoded `created_at` value is not
tracked (no request in the claims carries one that matters). -/
def decodeItemFields : JBody → Item → Except DecodeErr Item
  | [], it => .ok it
  | (k, v) :: rest, it =>
    if lowerKey k = "id" then
      match v with
      | .num n => decodeItemFields rest { it with id := n }
      | _ => .error (.typeMismatch "id" 0)
    else if lowerKey k = "name" then
      match v with
      | .str s => decodeItemFields rest { it with name := s }
      | _ => .error (.typeMismatch "name" 0)
    else if lowerKey k = "quantity" then
      match v with
      | .str s => decodeItemFields rest { it with quantity := s }
      | _ => .error (.typeMismatch "quantity" 0)
    else if lowerKey k = "created_at" then
      match v with
      | .str _ => decodeItemFields rest it
      | _ => .error (.typeMismatch "created_at" 0)
    else .error (.unknownField k)

/-- The request body as the decoder sees it: a well-formed JSON object
within the size cap, or one of the failure shapes `addItemHandler`
distinguishes. -/
inductive Body where
  | valid (fields : JBody)
  | malformed (offset : Nat)
  | empty
  | tooLarge
  deriving Repr

/-- Decode of the whole request body into `Item`, starting from the zero
value (main.go lines 255-262). -/
def decodeBody : Body → Except DecodeErr Item
  | .valid fields => decodeItemFields fields zeroItem
  | .malformed off => .error (.badJson off)
  | .empty => .error .emptyBody
  | .tooLarge => .error .tooLarge

/-! ### Handlers -/

/-- `getItemsHandler` (main.go lines 234-252). -/
def getItemsHandler (q : Except DbErr Cursor) : Response × List Call :=
  let (res, calls) := getItems q
  match res with
  | .error _ => ({ status := 500, body := "Internal Server Error\n" }, calls)
  | .ok items => ({ status := 200, body := encodeItems items ++ "\n" }, calls)

/-- `addItemHandler` (main.go lines 254-309). `qr` is the driver outcome of
the insert, used only if decode and validation pass. -/
def addItemHandler (qr : Except DbErr (Int × Nat)) (body : Body) :
    Response × List Call :=
  match decodeBody body with
  | .error (.badJson off) =>
      ({ status := 400,
         body := "Request body contains badly-formed JSON (at character " ++
           toString off ++ ")\n" }, [])
  | .error (.typeMismatch f off) =>
      ({ status := 400,
         body := "Request body contains an invalid value for the \"" ++ f ++
           "\" field (at character " ++ toString off ++ ")\n" }, [])
  | .error (.unknownField k) =>
      ({ status := 400,
         body := "Request body contains unknown field \"" ++ k ++ "\"\n" }, [])
  | .error .emptyBody =>
      ({ status := 400, body := "Request body must not be empty\n" }, [])
  | .error .tooLarge =>
      ({ status := 413, body := "Request body must not be larger than 1MB\n" }, [])
  | .ok newItem =>
    let (res, calls) := addItem qr newItem
    match res with
    | .error e =>
      if strContains e.msg "cannot be empty" then
        ({ status := 400, body := "Bad Request: " ++ e.msg ++ "\n" }, calls)
      else
        ({ status := 500, body := "Internal Server Error\n" }, calls)
    | .ok added =>
        ({ status := 201, body := encodeItem added ++ "\n" }, calls)

/-- `deleteItemHandler` (main.go lines 312-325): classifies the repository
error by `strings.Contains(err.Error(), "not found")`. -/
def deleteItemHandler (gwExec : Except DbErr Nat) (id : Int) :
    Response × List Call :=
  let (res, calls) := deleteItem gwExec id
  match res with
  | .error e =>
    if strContains e.msg "not found" then
      ({ status := 404, body := "Not Found\n" }, calls)
    else
      ({ status := 500, body := "Internal Server Error\n" }, calls)
  | .ok _ => ({ status := 204, body := "" }, calls)

/-- `itemsHandler` (main.go lines 198-207): dispatch on the method for the
`/items` collection route. -/
def itemsHandler (q : Except DbErr Cursor) (qr : Except DbErr (Int × Nat))
    (m : Method) (body : Body) : Response × List Call :=
  match m with
  | .get => getItemsHandler q
  | .post => addItemHandler qr body
  | _ => ({ status := 405, body := "Method Not Allowed\n" }, [])

/-- The id-extraction part of `itemDetailHandler` (main.go lines 212-223):
splits the slash-trimmed path, requires at least three segments with a
non-empty last segment preceded by `items`, and parses the last segment
with `strconv.Atoi`, rejecting parse failures and non-positive values. -/
def parseItemId (path : String) : Except Response Int :=
  let pathParts := splitSlash (trimSuffixSlash path)
  if pathParts.length < 3 ∨ pathParts.getLastD "" = "" ∨
      pathParts.getD (pathParts.length - 2) "" ≠ "items" then
    .error { status := 400, body := "Bad Request: Invalid URL format or missing item ID\n" }
  else
    match atoi (pathParts.getLastD "") with
    | .error _ =>
        .error { status := 400, body := "Bad Request: Invalid item ID format\n" }
    | .ok id =>
      if id ≤ 0 then
        .error { status := 400, body := "Bad Request: Invalid item ID format\n" }
      else .ok id

/-- `itemDetailHandler` (main.go lines 209-232): parses the id from the
path first, then dispatches on the method (only DELETE is accepted). -/
def itemDetailHandler (gwExec : Except DbErr Nat) (m : Method) (path : String) :
    Response × List Call :=
  match parseItemId path with
  | .error resp => (resp, [])
  | .ok id =>
    match m with
    | .delete => deleteItemHandler gwExec id
    | _ => ({ status := 405, body := "Method Not Allowed\n" }, [])

/-- The `/healthz` handler (main.go lines 376-385): pings the pool and
answers 200 `OK` or 503; it never inspects the request method. -/
def healthzHandler (ping : Except DbErr Unit) (_m : Method) : Response :=
  match ping with
  | .error _ => { status := 503, body := "Database connection failed\n" }
  | .ok _ => { status := 200, body := "OK\n" }

/-- A JSON object field that `decodeItemFields` consumes without error: a
key matching one of the `Item` struct tags, carrying a value of that
field's type. -/
def wellTypedField : String × JVal → Bool
  | (k, .num _) => lowerKey k = "id"
  | (k, .str _) =>
      lowerKey k = "name" || lowerKey k = "quantity" || lowerKey k = "created_at"
  | (_, .other) => false

/-! ## Shared lemmas -/

/-- A wrapped driver error message from `deleteItem` never coincides with
its not-found message: the two `fmt.Errorf` formats have different fixed
leading text. -/
theorem wrappedDeleteErr_ne_notFound (a b : String) :
    "database delete error: " ++ a ≠ "item with ID " ++ b ++ " not found" := by
  intro h
  have h2 := congrArg String.data h
  simp [String.data_append] at h2

/-- Strict decoding stops with an unknown-field error at the first key that
matches no `Item` struct tag, provided every earlier field decoded cleanly;
no later field is examined. -/
theorem decodeItemFields_unknown (k : String) (v : JVal) (rest : JBody)
    (hk : knownKey k = false) :
    ∀ (pre : JBody), (∀ p ∈ pre, wellTypedField p = true) → ∀ it : Item,
      decodeItemFields (pre ++ (k, v) :: rest) it = .error (.unknownField k) := by
  intro pre
  induction pre with
  | nil =>
    intro _ it
    simp only [knownKey, Bool.or_eq_false_iff, decide_eq_false_iff_not] at hk
    obtain ⟨⟨⟨h1, h2⟩, h3⟩, h4⟩ := hk
    simp [decodeItemFields, h1, h2, h3, h4]
  | cons p pre ih =>
    intro hpre it
    have hp : wellTypedField p = true := hpre p (by simp)
    have hpre2 : ∀ q ∈ pre, wellTypedField q = true := fun q hq => hpre q (by simp [hq])
    obtain ⟨k2, v2⟩ := p
    cases v2 with
    | num n =>
      simp only [wellTypedField, decide_eq_true_eq] at hp
      simp [decodeItemFields, hp, ih hpre2]
    | str s =>
      simp only [wellTypedField, Bool.or_eq_true, decide_eq_true_eq] at hp
      rcases hp with (hname | hquantity) | hcreated
      · have : lowerKey k2 ≠ "id" := by simp [hname]
        simp [decodeItemFields, hname, this, ih hpre2]
      · have hid : lowerKey k2 ≠ "id" := by simp [hquantity]
        have hnm : lowerKey k2 ≠ "name" := by simp [hquantity]
        simp [decodeItemFields, hquantity, hid, hnm, ih hpre2]
      · have hid : lowerKey k2 ≠ "id" := by simp [hcreated]
        have hnm : lowerKey k2 ≠ "name" := by simp [hcreated]
        have hqt : lowerKey k2 ≠ "quantity" := by simp [hcreated]
        simp [decodeItemFields, hcreated, hid, hnm, hqt, ih hpre2]
    | other => simp [wellTypedField] at hp

/-- The id accepted by `parseItemId` is always positive: the handler
rejects `id <= 0` explicitly. -/
theorem parseItemId_pos (path : String) (id : Int)
    (h : parseItemId path = .ok id) : 0 < id := by
  simp only [parseItemId] at h
  split at h
  · exact absurd h (by simp)
  · split at h
    · exact absurd h (by simp)
    · split at h
      · exact absurd h (by simp)
      · rename_i hle
        cases h
        omega

/-- Every failure of `parseItemId` is a 400 response: both rejection
branches of the handler's parse use `http.StatusBadRequest`. -/
theorem parseItemId_err_400 (path : String) (r : Response)
    (h : parseItemId path = .error r) : r.status = 400 := by
  simp only [parseItemId] at h
  split at h
  · cases h; rfl
  · split at h
    · cases h; rfl
    · split at h
      · cases h; rfl
      · exact absurd h (by simp)

/-! ## Claim theorems -/

/-- C4: for every candidate whose name or quantity trims to empty, `addItem`
fails with the validation error whose message contains "cannot be empty"
and issues no gateway call, and `addItemHandler` maps this failure of any
body decoding to such a candidate to a 400 response carrying the validation
message, still with no gateway call. -/
theorem addItem_validation_spec (qr : Except DbErr (Int × Nat))
    (fields : JBody) (cand : Item)
    (hdec : decodeItemFields fields zeroItem = .ok cand)
    (h : trimSpace cand.name = "" ∨ trimSpace cand.quantity = "") :
    addItem qr cand = (.error ⟨"item name and quantity cannot be empty"⟩, []) ∧
    strContains "item name and quantity cannot be empty" "cannot be empty" = true ∧
    addItemHandler qr (.valid fields) =
      ({ status := 400,
         body := "Bad Request: item name and quantity cannot be empty\n" }, []) := by
  have hadd : addItem qr cand =
      (.error ⟨"item name and quantity cannot be empty"⟩, []) := by
    unfold addItem
    rw [if_pos h]
  have hc : strContains "item name and quantity cannot be empty"
      "cannot be empty" = true := by decide
  refine ⟨hadd, hc, ?_⟩
  simp [addItemHandler, decodeBody, hdec, hadd, hc]

/-- Witness for C4 at the spec's own example: a whitespace-only name. -/
theorem addItem_validation_spec_witness :
    addItemHandler (.ok (1, 1))
        (.valid [("name", .str "  "), ("quantity", .str "1")]) =
      ({ status := 400,
         body := "Bad Request: item name and quantity cannot be empty\n" }, []) :=
  (addItem_validation_spec (.ok (1, 1))
      [("name", .str "  "), ("quantity", .str "1")]
      { id := 0, name := "  ", quantity := "1", createdAt := 0 }
      rfl (Or.inl rfl)).2.2

/-- C5: `deleteItem` issues exactly one parameterized delete; it succeeds
iff the gateway succeeds with at least one affected row; it fails with the
not-found error exactly when the gateway succeeds with zero affected rows;
and every gateway failure becomes a wrapped persistence error that is never
equal to a not-found error. -/
theorem deleteItem_repo_spec (gw : Except DbErr Nat) (id : Int) :
    (deleteItem gw id).2 = [{ sql := deleteSQL, args := [.int id] }] ∧
    ((deleteItem gw id).1 = .ok () ↔ ∃ n, gw = .ok n ∧ n ≠ 0) ∧
    ((deleteItem gw id).1 =
        .error ⟨"item with ID " ++ toString id ++ " not found"⟩ ↔ gw = .ok 0) ∧
    (∀ e, gw = .error e →
      (deleteItem gw id).1 = .error ⟨"database delete error: " ++ e.msg⟩ ∧
      ∀ id2 : Int, GoErr.mk ("database delete error: " ++ e.msg) ≠
        ⟨"item with ID " ++ toString id2 ++ " not found"⟩) := by
  refine ⟨?_, ?_, ?_, ?_⟩
  · cases gw with
    | error e => rfl
    | ok n =>
      by_cases h : n = 0 <;> simp [deleteItem, h]
  · cases gw with
    | error e => simp [deleteItem]
    | ok n =>
      by_cases h : n = 0 <;> simp [deleteItem, h]
  · cases gw with
    | error e =>
      simp only [deleteItem]
      constructor
      · intro h
        exact absurd (GoErr.mk.injEq _ _ ▸ (Except.error.injEq _ _ ▸ h))
          (wrappedDeleteErr_ne_notFound e.msg (toString id))
      · intro h
        exact absurd h (by simp)
    | ok n =>
      by_cases h : n = 0 <;> simp [deleteItem, h]
  · intro e he
    subst he
    refine ⟨rfl, fun id2 => ?_⟩
    intro h
    exact wrappedDeleteErr_ne_notFound e.msg (toString id2)
      (GoErr.mk.injEq _ _ ▸ h)

/-- Witness for C5 at a concrete gateway failure. -/
theorem deleteItem_repo_spec_witness :
    (deleteItem (.error ⟨"connection reset"⟩) 5).1 =
      .error ⟨"database delete error: connection reset"⟩ :=
  ((deleteItem_repo_spec (.error ⟨"connection reset"⟩) 5).2.2.2
    ⟨"connection reset"⟩ rfl).1

/-- C9: for every candidate with non-empty trimmed name and quantity, a
successful insert returning `(id, ts)` makes `addItem` succeed with the
candidate's name and quantity and the storage-assigned id and timestamp,
and every insert failure makes it fail with a wrapped persistence error and
no Item. -/
theorem addItem_success_spec (qr : Except DbErr (Int × Nat)) (cand : Item)
    (h1 : trimSpace cand.name ≠ "") (h2 : trimSpace cand.quantity ≠ "") :
    (∀ id ts, qr = .ok (id, ts) →
      (addItem qr cand).1 =
        .ok { id := id, name := cand.name, quantity := cand.quantity,
              createdAt := ts }) ∧
    (∀ e, qr = .error e →
      (addItem qr cand).1 = .error ⟨"database insert error: " ++ e.msg⟩ ∧
      ∀ it, (addItem qr cand).1 ≠ .ok it) := by
  constructor
  · intro id ts hqr
    subst hqr
    simp [addItem, h1, h2]
  · intro e hqr
    subst hqr
    simp [addItem, h1, h2]

/-- Witness for C9 at a concrete successful insert. -/
theorem addItem_success_spec_witness :
    (addItem (.ok (7, 42)) { id := 0, name := "Milk", quantity := "2", createdAt := 0 }).1 =
      .ok { id := 7, name := "Milk", quantity := "2", createdAt := 42 } :=
  (addItem_success_spec (.ok (7, 42))
      { id := 0, name := "Milk", quantity := "2", createdAt := 0 }
      (by decide) (by decide)).1 7 42 rfl

/-- C10: trimming is used only for validation: for every accepted
candidate, the insert binds the candidate's original, untrimmed name and
quantity, and any returned Item carries those same original strings. -/
theorem addItem_untrimmed_spec (qr : Except DbErr (Int × Nat)) (cand : Item)
    (h1 : trimSpace cand.name ≠ "") (h2 : trimSpace cand.quantity ≠ "") :
    (addItem qr cand).2 =
      [{ sql := insertSQL, args := [.str cand.name, .str cand.quantity] }] ∧
    ∀ it, (addItem qr cand).1 = .ok it →
      it.name = cand.name ∧ it.quantity = cand.quantity := by
  constructor
  · cases qr with
    | error e => simp [addItem, h1, h2]
    | ok p => simp [addItem, h1, h2]
  · intro it hit
    cases qr with
    | error e => simp [addItem, h1, h2] at hit
    | ok p =>
      obtain ⟨id, ts⟩ := p
      simp only [addItem, h1, h2] at hit
      simp at hit
      simp [← hit]

/-- Witness for C10: a name with surrounding whitespace is bound and echoed
verbatim. -/
theorem addItem_untrimmed_spec_witness :
    (addItem (.ok (3, 9)) { id := 0, name := "  Milk  ", quantity := "1", createdAt := 0 }).2 =
      [{ sql := insertSQL, args := [.str "  Milk  ", .str "1"] }] :=
  (addItem_untrimmed_spec (.ok (3, 9))
      { id := 0, name := "  Milk  ", quantity := "1", createdAt := 0 }
      (by decide) (by decide)).1

/-- C6: a row whose scan fails is skipped and changes nothing about the
outcome; a cursor with only clean rows yields exactly those items; and a
cursor-iteration error after the rows makes the whole call fail,
discarding every already-decoded row. -/
theorem getItems_row_skip_spec (pre post : List (Except DbErr Item))
    (bad : DbErr) (e : DbErr) :
    ((getItems (.ok ⟨pre ++ .error bad :: post, none⟩)).1 =
      (getItems (.ok ⟨pre ++ post, none⟩)).1) ∧
    (∀ items : List Item,
      (getItems (.ok ⟨items.map .ok, none⟩)).1 = .ok items) ∧
    ((getItems (.ok ⟨pre ++ .error bad :: post, some e⟩)).1 =
      .error ⟨"database iteration error: " ++ e.msg⟩) := by
  refine ⟨?_, ?_, ?_⟩
  · simp [getItems]
  · intro items
    induction items with
    | nil => rfl
    | cons x xs ih =>
      simp only [getItems, List.map_cons, List.filterMap_cons] at ih ⊢
      simpa using ih
  · simp [getItems]

/-- C8: the list operation on an empty cursor returns a non-null empty
sequence and no error; the list handler serializes every success as a JSON
array, the literal `[]` (plus the encoder's newline) when empty, and its
body is never the JSON `null`. -/
theorem list_empty_json_spec :
    (getItems (.ok ⟨[], none⟩)).1 = .ok [] ∧
    (getItemsHandler (.ok ⟨[], none⟩)).1 = { status := 200, body := "[]\n" } ∧
    (∀ (q : Except DbErr Cursor) (items : List Item),
      (getItems q).1 = .ok items →
        (getItemsHandler q).1 =
          { status := 200, body := encodeItems items ++ "\n" } ∧
        (getItemsHandler q).1.body ≠ "null" ∧
        (getItemsHandler q).1.body ≠ "null\n") := by
  refine ⟨rfl, rfl, ?_⟩
  intro q items h
  have hh : (getItemsHandler q).1 =
      { status := 200, body := encodeItems items ++ "\n" } := by
    simp [getItemsHandler, h]
  refine ⟨hh, ?_, ?_⟩
  · rw [hh]
    intro hbad
    have h2 := congrArg String.data hbad
    simp [encodeItems, String.data_append] at h2
  · rw [hh]
    intro hbad
    have h2 := congrArg String.data hbad
    simp [encodeItems, String.data_append] at h2

/-- Witness for C8 at the empty cursor. -/
theorem list_empty_json_spec_witness :
    (getItemsHandler (.ok ⟨[], none⟩)).1 =
      { status := 200, body := encodeItems [] ++ "\n" } :=
  (list_empty_json_spec.2.2 (.ok ⟨[], none⟩) [] rfl).1

/-- The empty pattern is a leading segment of every list. -/
theorem startsWithL_nil (l : List Char) : startsWithL l [] = true := by
  cases l <;> rfl

/-- A list that starts with `pat` still does after extending it on the
right. -/
theorem startsWithL_append (pat l l2 : List Char)
    (h : startsWithL l pat = true) : startsWithL (l ++ l2) pat = true := by
  induction pat generalizing l with
  | nil => exact startsWithL_nil _
  | cons p ps ih =>
    cases l with
    | nil => simp [startsWithL] at h
    | cons c cs =>
      simp only [startsWithL, Bool.and_eq_true] at h
      simp only [List.cons_append, startsWithL, Bool.and_eq_true]
      exact ⟨h.1, ih cs h.2⟩

/-- An occurrence of `pat` inside `l1` survives appending `l2`. -/
theorem containsL_append_left (pat l1 l2 : List Char)
    (h : containsL pat l1 = true) : containsL pat (l1 ++ l2) = true := by
  induction l1 with
  | nil =>
    cases pat with
    | nil => cases l2 <;> simp [containsL, startsWithL]
    | cons p ps => simp [containsL, startsWithL] at h
  | cons c cs ih =>
    simp only [containsL, Bool.or_eq_true] at h
    simp only [List.cons_append, containsL, Bool.or_eq_true]
    rcases h with h | h
    · exact Or.inl (startsWithL_append _ _ _ h)
    · exact Or.inr (ih h)

/-- An occurrence of `pat` inside `l2` survives prepending `l1`. -/
theorem containsL_append_right (pat l2 : List Char)
    (h : containsL pat l2 = true) :
    ∀ l1, containsL pat (l1 ++ l2) = true := by
  intro l1
  induction l1 with
  | nil => simpa using h
  | cons c cs ih => simp [containsL, ih]

/-- The repository's not-found message contains "not found" whatever the
interpolated id text is. -/
theorem notfound_msg_contains (s : String) :
    strContains ("item with ID " ++ s ++ " not found") "not found" = true := by
  unfold strContains
  have hdata : ("item with ID " ++ s ++ " not found").data =
      ("item with ID ").data ++ (s.data ++ (" not found").data) := by
    simp [String.data_append]
  rw [hdata]
  exact containsL_append_right _ _
    (containsL_append_right _ _ (by decide) s.data) _

/-- The handler's unknown-field message contains "unknown field" whatever
the offending key is. -/
theorem unknown_field_msg_contains (k : String) :
    strContains ("Request body contains unknown field \"" ++ k ++ "\"\n")
      "unknown field" = true := by
  unfold strContains
  have hdata : ("Request body contains unknown field \"" ++ k ++ "\"\n").data =
      ("Request body contains unknown field \"").data ++ (k.data ++ ("\"\n").data) := by
    simp [String.data_append]
  rw [hdata]
  exact containsL_append_left _ _ _ (by decide)

/-- C1 counterexample: a storage-level failure whose driver message happens
to contain "not found" is wrapped by the repository and then classified by
the delete handler as 404, not 500, because classification matches the
substring "not found" in the error text. -/
theorem delete_wrapped_notfound_cex :
    (deleteItemHandler (.error ⟨"table items not found"⟩) 5).1.status = 404 ∧
    (404 : Nat) ≠ 500 :=
  ⟨rfl, by decide⟩

/-- C1 (amended): the delete handler responds 204 with an empty body when
the gateway deletes at least one row, 404 when the gateway reports zero
affected rows, and on a gateway failure 500 — unless the wrapped driver
message itself contains the substring "not found", in which case the
substring-based classification answers 404. -/
theorem delete_handler_mapping (gw : Except DbErr Nat) (id : Int) :
    (∀ n, gw = .ok n → n ≠ 0 →
      deleteItemHandler gw id = ({ status := 204, body := "" },
        [{ sql := deleteSQL, args := [.int id] }])) ∧
    (gw = .ok 0 →
      (deleteItemHandler gw id).1 = { status := 404, body := "Not Found\n" }) ∧
    (∀ e, gw = .error e →
      (strContains ("database delete error: " ++ e.msg) "not found" = true →
        (deleteItemHandler gw id).1 = { status := 404, body := "Not Found\n" }) ∧
      (strContains ("database delete error: " ++ e.msg) "not found" = false →
        (deleteItemHandler gw id).1 =
          { status := 500, body := "Internal Server Error\n" })) := by
  refine ⟨?_, ?_, ?_⟩
  · intro n hgw hn
    subst hgw
    simp [deleteItemHandler, deleteItem, hn]
  · intro hgw
    subst hgw
    have hc := notfound_msg_contains (toString id)
    simp [deleteItemHandler, deleteItem, hc]
  · intro e hgw
    subst hgw
    constructor
    · intro hb
      simp [deleteItemHandler, deleteItem, hb]
    · intro hb
      simp [deleteItemHandler, deleteItem, hb]

/-- Witness for C1 at a successful delete of one row. -/
theorem delete_handler_mapping_witness :
    deleteItemHandler (.ok 1) 3 = ({ status := 204, body := "" },
      [{ sql := deleteSQL, args := [.int 3] }]) :=
  (delete_handler_mapping (.ok 1) 3).1 1 rfl (by decide)

/-- C2 counterexample: a valid JSON body whose extra field is `id` — a
field other than `name` and `quantity` — is not rejected: the strict
decoder knows `id` as an `Item` struct field, so the request is accepted
with 201 and a storage insert is issued. -/
theorem addItemHandler_known_id_field_cex :
    (addItemHandler (.ok (7, 100))
      (.valid [("name", .str "Milk"), ("quantity", .str "1"),
               ("id", .num 5)])).1.status = 201 ∧
    (addItemHandler (.ok (7, 100))
      (.valid [("name", .str "Milk"), ("quantity", .str "1"),
               ("id", .num 5)])).2 ≠ [] :=
  ⟨rfl, by decide⟩

/-- C2 (amended): a valid-JSON POST body containing a field that matches
none of the `Item` struct keys `id`, `name`, `quantity`, `created_at`
(case-insensitively), all earlier fields decoding cleanly, is rejected
with 400 whose message mentions the unknown field, and no storage call is
made; bodies whose extra fields are among the struct keys (such as `id`)
are not rejected. -/
theorem addItemHandler_unknown_field (qr : Except DbErr (Int × Nat))
    (pre : JBody) (k : String) (v : JVal) (rest : JBody)
    (hpre : ∀ p ∈ pre, wellTypedField p = true)
    (hk : knownKey k = false) :
    addItemHandler qr (.valid (pre ++ (k, v) :: rest)) =
      ({ status := 400,
         body := "Request body contains unknown field \"" ++ k ++ "\"\n" }, []) ∧
    strContains ("Request body contains unknown field \"" ++ k ++ "\"\n")
      "unknown field" = true := by
  constructor
  · have hd := decodeItemFields_unknown k v rest hk pre hpre zeroItem
    simp [addItemHandler, decodeBody, hd]
  · exact unknown_field_msg_contains k

/-- Witness for C2, at the spec's own example body. -/
theorem addItemHandler_unknown_field_witness :
    addItemHandler (.ok (3, 50))
      (.valid [("name", .str "Milk"), ("quantity", .str "1"),
               ("extra", .str "x")]) =
      ({ status := 400,
         body := "Request body contains unknown field \"extra\"\n" }, []) :=
  (addItemHandler_unknown_field (.ok (3, 50))
    [("name", .str "Milk"), ("quantity", .str "1")] "extra" (.str "x") []
    (by decide) (by decide)).1

/-- C3 counterexample: the health route is registered but accepts every
method — a POST to it answers 200, not 405; and on the item-detail route a
non-DELETE method with a malformed id answers 400, not 405, because the id
is parsed before the method is checked. -/
theorem method_dispatch_cex :
    (healthzHandler (.ok ()) .post).status = 200 ∧ (200 : Nat) ≠ 405 ∧
    (itemDetailHandler (.ok 1) .put "/items/abc").1.status = 400 :=
  ⟨rfl, by decide, rfl⟩

/-- C3 (amended): the collection route answers 405 to any method other
than GET and POST; the item-detail route answers 405 to any method other
than DELETE provided the id segment parses as a positive integer — with an
invalid id it answers 400 regardless of method; the health route accepts
every method and never answers 405. -/
theorem method_dispatch_spec (q : Except DbErr Cursor)
    (qr : Except DbErr (Int × Nat)) (body : Body) (gw : Except DbErr Nat)
    (ping : Except DbErr Unit) (m : Method) (path : String) :
    (m ≠ .get → m ≠ .post →
      itemsHandler q qr m body =
        ({ status := 405, body := "Method Not Allowed\n" }, [])) ∧
    (∀ id, parseItemId path = .ok id → m ≠ .delete →
      itemDetailHandler gw m path =
        ({ status := 405, body := "Method Not Allowed\n" }, [])) ∧
    (∀ r, parseItemId path = .error r →
      itemDetailHandler gw m path = (r, []) ∧ r.status = 400) ∧
    (healthzHandler ping m).status ≠ 405 := by
  refine ⟨?_, ?_, ?_, ?_⟩
  · intro h1 h2
    cases m <;> simp_all [itemsHandler]
  · intro id hid hm
    cases m <;> simp_all [itemDetailHandler]
  · intro r hr
    exact ⟨by simp [itemDetailHandler, hr], parseItemId_err_400 path r hr⟩
  · cases ping <;> simp [healthzHandler]

/-- Witness for C3: PUT on a well-formed item path answers 405. -/
theorem method_dispatch_spec_witness :
    itemDetailHandler (.ok 1) .put "/items/5" =
      ({ status := 405, body := "Method Not Allowed\n" }, []) :=
  (method_dispatch_spec (.ok ⟨[], none⟩) (.ok (1, 1)) .empty (.ok 1) (.ok ())
    .put "/items/5").2.1 5 rfl (by decide)

/-- C7: every failure of the id parse — missing segment, non-numeric, or
non-positive — makes the DELETE handler answer 400 without any repository
call; the repository delete is only ever invoked with a positive id; and
the spec's three example paths are all rejected with 400 and no call. -/
theorem itemDetail_id_guard_spec (gw : Except DbErr Nat) (path : String) :
    (∀ r, parseItemId path = .error r →
      itemDetailHandler gw .delete path = (r, []) ∧ r.status = 400) ∧
    ((itemDetailHandler gw .delete path).2 ≠ [] →
      ∃ id, 0 < id ∧ parseItemId path = .ok id ∧
        (itemDetailHandler gw .delete path).2 =
          [{ sql := deleteSQL, args := [.int id] }]) ∧
    itemDetailHandler gw .delete "/items/abc" =
      ({ status := 400, body := "Bad Request: Invalid item ID format\n" }, []) ∧
    itemDetailHandler gw .delete "/items/-5" =
      ({ status := 400, body := "Bad Request: Invalid item ID format\n" }, []) ∧
    itemDetailHandler gw .delete "/items/" =
      ({ status := 400,
         body := "Bad Request: Invalid URL format or missing item ID\n" }, []) := by
  refine ⟨?_, ?_, rfl, rfl, rfl⟩
  · intro r hr
    exact ⟨by simp [itemDetailHandler, hr], parseItemId_err_400 path r hr⟩
  · intro hcalls
    cases hparse : parseItemId path with
    | error r =>
      exact absurd (by simp [itemDetailHandler, hparse]) hcalls
    | ok id =>
      refine ⟨id, parseItemId_pos path id hparse, rfl, ?_⟩
      cases gw with
      | error e =>
        simp only [itemDetailHandler, hparse, deleteItemHandler, deleteItem]
        split <;> rfl
      | ok n =>
        by_cases hn : n = 0
        · simp only [itemDetailHandler, hparse, deleteItemHandler, deleteItem,
            hn, if_pos]
          split <;> rfl
        · simp [itemDetailHandler, hparse, deleteItemHandler, deleteItem, hn]

/-- Witness for C7 at the non-numeric example path. -/
theorem itemDetail_id_guard_spec_witness :
    itemDetailHandler (.ok 1) .delete "/items/abc" =
      ({ status := 400, body := "Bad Request: Invalid item ID format\n" }, []) ∧
    Response.status
        { status := 400, body := "Bad Request: Invalid item ID format\n" } = 400 :=
  (itemDetail_id_guard_spec (.ok 1) "/items/abc").1
    { status := 400, body := "Bad Request: Invalid item ID format\n" } rfl

end ShoppingList
